import Mathlib

/-!
Verification of the K1 Max print-automation core (`automacao_k1max.py`).

The embedding models JSON values (`JValue`), the Python dictionary and
sequence operations the source applies to decoded responses (with raised
exceptions modelled as `Except.error ()`), and the five operations the
claims are about:

* `robust_http_request` — the retrying HTTP client (lines 25-51);
* `get_printer_state` / `is_printer_ready` — the state facade (175-188);
* `upload_gcode` — the G-code upload (190-213);
* `monitor_print_status` — the WebSocket monitoring loop (225-312),
  driven by a list of receive events;
* `automate_k1max_printing_workflow` — the orchestrator (315-362),
  parameterised by the outcomes of the stages it sequences.
-/

/-- JSON values as decoded by `json.loads` / `response.json()`. -/
inductive JValue where
  | null : JValue
  | bool : Bool → JValue
  | num : Int → JValue
  | str : String → JValue
  | arr : List JValue → JValue
  | obj : List (String × JValue) → JValue

/-- Python truthiness of a decoded JSON value (`if response_data:`). -/
def jTruthy : JValue → Bool
  | .null => false
  | .bool b => b
  | .num n => n != 0
  | .str s => !s.isEmpty
  | .arr xs => !xs.isEmpty
  | .obj fs => !fs.isEmpty

/-- Python `d.get(key, default)`: defaulted lookup on a dict; on any
non-dict value the attribute access raises (`AttributeError`). -/
def dictGet (v : JValue) (key : String) (default : JValue) : Except Unit JValue :=
  match v with
  | .obj fields => .ok ((fields.lookup key).getD default)
  | _ => .error ()

/-- Python `key in v` for a string key: key membership on dicts, element
equality on lists, substring test on strings (call sites pass non-empty
literal keys), `TypeError` on the remaining values. -/
def pyContains (v : JValue) (key : String) : Except Unit Bool :=
  match v with
  | .obj fields => .ok (fields.lookup key).isSome
  | .arr xs => .ok (xs.any (fun x => match x with | .str s => s == key | _ => false))
  | .str s => .ok ((s.splitOn key).length != 1)
  | _ => .error ()

/-- Python `v[key]` for a string key: dict indexing (`KeyError` when the
key is missing), `TypeError` on every other value. -/
def pySubscript (v : JValue) (key : String) : Except Unit JValue :=
  match v with
  | .obj fields =>
    match fields.lookup key with
    | some w => .ok w
    | none => .error ()
  | _ => .error ()

/-- Python `v[0]`: head of a list (`IndexError` when empty), first
character of a string, `KeyError`/`TypeError` on the other values
(the decoded objects only carry string keys). -/
def pyIndex0 (v : JValue) : Except Unit JValue :=
  match v with
  | .arr (x :: _) => .ok x
  | .arr [] => .error ()
  | .str s =>
    match s.data with
    | [] => .error ()
    | c :: _ => .ok (.str (String.mk [c]))
  | _ => .error ()

/-- Whether `x * 100` followed by an `:.2f`/`:.0f` format specifier runs
without raising in Python: true exactly for numbers and booleans. -/
def numFormattable : JValue → Bool
  | .num _ => true
  | .bool _ => true
  | _ => false

section RobustHttp

/-- Observable trace of one `robust_http_request` call: the returned
value, the number of attempts performed, the waits slept between
consecutive attempts, and the error cause logged by each failing
attempt (line 43). -/
structure RobustTrace where
  result : Option JValue
  attempts : Nat
  waits : List Nat
  errLog : List String

/-- The body of `for i in range(retries)` (lines 31-50): attempt `i`
via `transport`; on success return the decoded body; on a transport
failure sleep `delay` and double it unless this was the last attempt,
in which case return `None`. `remaining` is the number of loop
iterations left, so the `i < retries - 1` test becomes `remaining > 1`. -/
def robustLoop (transport : Nat → Except String JValue) (delay i : Nat) :
    Nat → RobustTrace
  | 0 => ⟨none, 0, [], []⟩
  | remaining + 1 =>
    match transport i with
    | .ok v => ⟨some v, 1, [], []⟩
    | .error e =>
      if remaining = 0 then ⟨none, 1, [], [e]⟩
      else
        let rest := robustLoop transport (delay * 2) (i + 1) remaining
        ⟨rest.result, rest.attempts + 1, delay :: rest.waits, e :: rest.errLog⟩

/-- `robust_http_request` (lines 25-51): run the retry loop from attempt
0. `retries` is an `Int` because Python's `range` treats every
non-positive bound as the empty range. -/
def robust_http_request (transport : Nat → Except String JValue)
    (retries : Int) (delay : Nat) : RobustTrace :=
  robustLoop transport delay 0 retries.toNat

end RobustHttp

section Facade

/-- `get_printer_state` (lines 175-183): on a truthy response walk
`result` → `status` → `printer` with `{}` defaults and read `state`
(no default); on an absent or falsy response log and return `None`.
A traversed level that is present but not a dict raises. -/
def get_printer_state (response_data : Option JValue) : Except Unit (Option JValue) :=
  match response_data with
  | none => .ok none
  | some v =>
    if jTruthy v then
      match dictGet v "result" (.obj []) with
      | .error e => .error e
      | .ok r =>
        match dictGet r "status" (.obj []) with
        | .error e => .error e
        | .ok s =>
          match dictGet s "printer" (.obj []) with
          | .error e => .error e
          | .ok p =>
            match p with
            | .obj pf => .ok (pf.lookup "state")
            | _ => .error ()
    else .ok none

/-- Python `state in ["ready", "idle"]` where `state` is the value
returned by `get_printer_state`: true exactly when it is one of the two
strings. -/
def readyCheck : Option JValue → Bool
  | some (.str s) => s == "ready" || s == "idle"
  | _ => false

/-- `is_printer_ready` (lines 185-188): query the state and test
membership in `["ready", "idle"]`; an exception propagates. -/
def is_printer_ready (response_data : Option JValue) : Except Unit Bool :=
  match get_printer_state response_data with
  | .error e => .error e
  | .ok st => .ok (readyCheck st)

/-- The mock upload response built by `mock_http_request` for the
`server/files/upload` endpoint (line 97). -/
def mock_upload_response (basename : String) : JValue :=
  .obj [("success", .bool true), ("file_id", .str ("mock_file_id_" ++ basename))]

/-- `upload_gcode` (lines 190-213), returning the filename outcome and
the number of transport attempts issued. In mock mode the local file is
never opened and the mock response is consulted. In real mode a missing
local file raises `FileNotFoundError`, caught at line 208, before any
request is made; otherwise the request goes through
`robust_http_request` with the default budget 5 and delay 2, and a
truthy response yields the base name. -/
def upload_gcode (enable_mock : Bool) (fileExists : Bool)
    (transport : Nat → Except String JValue) (basename : String) :
    Option String × Nat :=
  if enable_mock then
    if jTruthy (mock_upload_response basename) then (some basename, 0) else (none, 0)
  else if !fileExists then (none, 0)
  else
    let t := robust_http_request transport 5 2
    match t.result with
    | none => (none, t.attempts)
    | some v => if jTruthy v then (some basename, t.attempts) else (none, t.attempts)

end Facade

section Monitoring

/-- One outcome of `await asyncio.wait_for(websocket_recv(), timeout)`
followed by `json.loads` (lines 266-267): a successfully decoded frame,
a string that fails to decode (`json.JSONDecodeError`), an idle timeout
(`asyncio.TimeoutError`), a clean close (`ConnectionClosedOK`), or a
channel error (`WebSocketException`). -/
inductive RecvEvent where
  | frame : JValue → RecvEvent
  | badJson : RecvEvent
  | timeout : RecvEvent
  | closedOk : RecvEvent
  | wsError : RecvEvent

/-- The terminal-state dispatch of lines 280-291 applied to the
extracted `state` and `print_stats.get("filename")` values:
on a filename match, `complete` breaks with success, `error`,
`cancelled` and `shutdown` break with failure, every other state (and
every mismatched or absent filename) lets the loop continue. -/
def leafVerdict (filename_expected : String) (st fn : JValue) : Option Bool :=
  match fn with
  | .str s =>
    if s = filename_expected then
      match st with
      | .str cs =>
        if cs = "complete" then some true
        else if cs = "error" ∨ cs = "cancelled" ∨ cs = "shutdown" then some false
        else none
      | _ => none
    else none
  | _ => none

/-- Handling of one decoded frame (lines 269-291): `.error ()` when the
processing raises (caught by the generic handler at line 305, breaking
the loop as a failure), `.ok none` when the loop continues, and
`.ok (some b)` when the loop breaks with `print_completed_successfully = b`. -/
def processFrame (filename_expected : String) (v : JValue) : Except Unit (Option Bool) :=
  match pyContains v "method" with
  | .error e => .error e
  | .ok false => .ok none
  | .ok true =>
    match pySubscript v "method" with
    | .error e => .error e
    | .ok m =>
      match m with
      | .str ms =>
        if ms = "notify_status_update" then
          match pySubscript v "params" with
          | .error e => .error e
          | .ok params =>
            match pyIndex0 params with
            | .error e => .error e
            | .ok data =>
              match dictGet data "print_stats" (.obj []) with
              | .error e => .error e
              | .ok print_stats =>
                match pyContains print_stats "state" with
                | .error e => .error e
                | .ok false => .ok none
                | .ok true =>
                  match pySubscript print_stats "state" with
                  | .error e => .error e
                  | .ok current_state =>
                    match dictGet print_stats "progress" (.num 0) with
                    | .error e => .error e
                    | .ok progress =>
                      if numFormattable progress then
                        match dictGet print_stats "print_duration" (.num 0) with
                        | .error e => .error e
                        | .ok dur =>
                          if numFormattable dur then
                            match dictGet print_stats "filename" .null with
                            | .error e => .error e
                            | .ok fn => .ok (leafVerdict filename_expected current_state fn)
                          else .error ()
                      else .error ()
        else .ok none
      | _ => .ok none

/-- State of the receive loop when it exits: the
`print_completed_successfully` flag, whether the exit was a clean close
(after which `websocket.closed` is true), and the re-subscriptions sent. -/
structure LoopResult where
  success : Bool
  closedByPeer : Bool
  resubs : Nat

/-- What one iteration of the `while True` loop (lines 264-307) does
with a receive outcome: `some p` breaks the loop leaving state `p`,
`none` continues. A timeout continues (after re-subscribing, line 295);
a clean close breaks keeping the current `False` flag (line 298);
channel errors, undecodable messages and frames whose processing raises
break as failures; a decoded frame otherwise follows `processFrame`. -/
def exitPayload (filename_expected : String) : RecvEvent → Option LoopResult
  | .timeout => none
  | .closedOk => some ⟨false, true, 0⟩
  | .wsError => some ⟨false, false, 0⟩
  | .badJson => some ⟨false, false, 0⟩
  | .frame v =>
    match processFrame filename_expected v with
    | .error _ => some ⟨false, false, 0⟩
    | .ok none => none
    | .ok (some b) => some ⟨b, false, 0⟩

/-- Number of subscribe messages sent while handling one receive
outcome: one re-subscription per timeout (line 295). -/
def resubDelta : RecvEvent → Nat
  | .timeout => 1
  | _ => 0

/-- The receive loop over a finite list of receive outcomes: `none`
when the list is exhausted with the loop still running, `some` with the
exit state otherwise. -/
def monitorLoop (filename_expected : String) : List RecvEvent → Option LoopResult
  | [] => none
  | e :: rest =>
    match exitPayload filename_expected e with
    | some p => some p
    | none =>
      match monitorLoop filename_expected rest with
      | none => none
      | some r => some ⟨r.success, r.closedByPeer, r.resubs + resubDelta e⟩

/-- Observables of one `monitor_print_status` run: the returned flag,
how many times the channel transitioned from open to closed, whether it
ends closed, and how many subscribe messages were sent in total. -/
structure MonitorResult where
  result : Bool
  closeActions : Nat
  closedAtEnd : Bool
  subscribeSends : Nat

/-- `monitor_print_status` (lines 225-312) on a finite list of receive
outcomes: subscribe once (line 261), run the receive loop, then in the
`finally` block close the channel when the run is real and the channel
is not already closed (lines 308-310). A clean close counts as the one
close of the channel; otherwise the explicit close is the one. -/
def monitor_print_status (enable_mock : Bool) (filename_expected : String)
    (events : List RecvEvent) : Option MonitorResult :=
  match monitorLoop filename_expected events with
  | none => none
  | some r =>
    some ⟨r.success,
          (if r.closedByPeer then 1 else 0) +
            (if !enable_mock && !r.closedByPeer then 1 else 0),
          r.closedByPeer || (!enable_mock && !r.closedByPeer),
          1 + r.resubs⟩

end Monitoring

section Workflow

/-- `for i in range(5)` of lines 336-343: poll readiness; stop at the
first ready poll, otherwise log, sleep 10 seconds and try again; report
whether a poll succeeded, how many polls ran and the sleeps performed. -/
def pollReady (ready : Nat → Bool) (i : Nat) : Nat → Bool × Nat × List Nat
  | 0 => (false, 0, [])
  | fuel + 1 =>
    if ready i then (true, 1, [])
    else
      let rest := pollReady ready (i + 1) fuel
      (rest.1, rest.2.1 + 1, 10 :: rest.2.2)

/-- Trace of one `automate_k1max_printing_workflow` run: outcome,
readiness polls performed, sleeps between them, and which later stages
were reached. -/
structure WorkflowTrace where
  result : Bool
  readyPolls : Nat
  sleeps : List Nat
  uploadCalled : Bool
  startCalled : Bool
  monitorCalled : Bool

/-- `automate_k1max_printing_workflow` (lines 315-362), parameterised by
the outcome of each stage it sequences: the connectivity check, the
per-poll readiness answers, the upload result (`if not
gcode_filename_on_printer:` also rejects an empty name), the start
acknowledgement and the monitoring verdict. -/
def automate_k1max_printing_workflow (conn : Bool) (ready : Nat → Bool)
    (upload : Option String) (start : Bool) (monitor : Bool) : WorkflowTrace :=
  if conn then
    let pr := pollReady ready 0 5
    if pr.1 then
      match upload with
      | none => ⟨false, pr.2.1, pr.2.2, true, false, false⟩
      | some fn =>
        if fn = "" then ⟨false, pr.2.1, pr.2.2, true, false, false⟩
        else if start then ⟨monitor, pr.2.1, pr.2.2, true, true, true⟩
        else ⟨false, pr.2.1, pr.2.2, true, true, false⟩
    else ⟨false, pr.2.1, pr.2.2, false, false, false⟩
  else ⟨false, 0, [], false, false, false⟩

end Workflow

/-! ## Properties of the request client -/

/-- Doubling backoff over `range (r + 1)` peels off its first wait. -/
theorem range_map_double (d r : Nat) :
    (List.range (r + 1)).map (fun k => d * 2 ^ k) =
      d :: (List.range r).map (fun k => d * 2 * 2 ^ k) := by
  rw [List.range_succ_eq_map, List.map_cons, List.map_map]
  refine congrArg₂ _ (by simp) (List.map_congr_left ?_)
  intro a _
  simp only [Function.comp_apply, pow_succ]
  ring

/-- An indexed log over `range (r + 1)` peels off its first entry. -/
theorem range_map_shift (e : Nat → String) (i r : Nat) :
    (List.range (r + 1)).map (fun k => e (i + k)) =
      e i :: (List.range r).map (fun k => e (i + 1 + k)) := by
  rw [List.range_succ_eq_map, List.map_cons, List.map_map]
  refine congrArg₂ _ (by simp) (List.map_congr_left ?_)
  intro a _
  simp only [Function.comp_apply]
  congr 1
  omega

/-- On a permanently failing transport, the retry loop started with
`remaining + 1` iterations left performs them all, sleeps
`delay, 2·delay, ..., 2^(remaining-1)·delay` between attempts, logs the
error cause of every attempt, and returns `None`. -/
theorem robustLoop_all_fail (t : Nat → Except String JValue) (e : Nat → String)
    (ht : ∀ j, t j = .error (e j)) :
    ∀ (r i d : Nat), robustLoop t d i (r + 1) =
      ⟨none, r + 1, (List.range r).map (fun k => d * 2 ^ k),
        (List.range (r + 1)).map (fun k => e (i + k))⟩ := by
  intro r
  induction r with
  | zero =>
    intro i d
    simp [robustLoop, ht i, List.range_succ]
  | succ r ih =>
    intro i d
    rw [show r + 1 + 1 = (r + 1) + 1 from rfl, range_map_double,
      range_map_shift, robustLoop, ht i]
    simp [ih (i + 1) (d * 2)]

/-- Claim C2: for every retry budget `n ≥ 1` and initial delay `d`, if
every attempt fails at the transport level then `robust_http_request`
performs exactly `n` attempts, the waits between consecutive attempts
are `d, 2d, 4d, ..., 2^(n-2)·d`, the call returns `None` (the terminal
failure), and the last logged error cause is the cause of the last
attempt. -/
theorem robust_retry_exhaustion (t : Nat → Except String JValue) (e : Nat → String)
    (n d : Nat) (hn : 1 ≤ n) (ht : ∀ j, t j = .error (e j)) :
    robust_http_request t (n : Int) d =
      ⟨none, n, (List.range (n - 1)).map (fun k => d * 2 ^ k), (List.range n).map e⟩ ∧
    ((List.range n).map e).getLast? = some (e (n - 1)) := by
  obtain ⟨m, rfl⟩ : ∃ m, n = m + 1 := ⟨n - 1, (Nat.succ_pred_eq_of_pos hn).symm⟩
  constructor
  · unfold robust_http_request
    rw [Int.toNat_natCast, robustLoop_all_fail t e ht m 0 d]
    simp
  · rw [List.range_succ, List.map_append]
    simp

/-- Witness for C2 at `n = 3`, `d = 2`: three attempts, waits `[2, 4]`,
three logged causes ending in the last one. -/
theorem robust_retry_exhaustion_witness :
    robust_http_request (fun _ => .error "refused") (3 : Int) 2 =
      ⟨none, 3, (List.range 2).map (fun k => 2 * 2 ^ k),
        (List.range 3).map (fun _ => "refused")⟩ ∧
    ((List.range 3).map (fun _ => "refused")).getLast? = some "refused" :=
  robust_retry_exhaustion (fun _ => .error "refused") (fun _ => "refused") 3 2
    (by decide) (fun _ => rfl)

/-- Claim C10: a non-positive retry budget makes `range(retries)` empty,
so the client returns `None` with zero attempts, no waiting and no
logged attempt or failure. -/
theorem robust_zero_budget (t : Nat → Except String JValue) (d : Nat)
    (retries : Int) (h : retries ≤ 0) :
    robust_http_request t retries d = ⟨none, 0, [], []⟩ := by
  unfold robust_http_request
  rw [Int.toNat_of_nonpos h]
  rfl

/-- Witness for C10 at budget `-3`. -/
theorem robust_zero_budget_witness :
    robust_http_request (fun _ => .error "refused") (-3) 2 = ⟨none, 0, [], []⟩ :=
  robust_zero_budget (fun _ => .error "refused") 2 (-3) (by decide)

/-! ## Properties of the printer-state facade -/

/-- Claim C8: `is_printer_ready` answers `true` exactly when the state
query yields the phase `ready` or `idle`, and `false` for every other
yielded value, including `None`. -/
theorem is_printer_ready_characterization (rd : Option JValue) (st : Option JValue)
    (h : get_printer_state rd = .ok st) :
    (is_printer_ready rd = .ok true ↔
      st = some (.str "ready") ∨ st = some (.str "idle")) ∧
    (is_printer_ready rd = .ok false ↔
      ¬(st = some (.str "ready") ∨ st = some (.str "idle"))) := by
  unfold is_printer_ready
  rw [h]
  match st with
  | none => simp [readyCheck]
  | some (.null) => simp [readyCheck]
  | some (.bool b) => simp [readyCheck]
  | some (.num k) => simp [readyCheck]
  | some (.arr xs) => simp [readyCheck]
  | some (.obj fs) => simp [readyCheck]
  | some (.str s) =>
    by_cases hr : s = "ready" <;> by_cases hi : s = "idle" <;>
      simp [readyCheck, hr, hi]

/-- Witness for C8: a fully nested response with phase `ready` makes
`is_printer_ready` answer `true`. -/
theorem is_printer_ready_characterization_witness :
    is_printer_ready (some (.obj [("result", .obj [("status",
      .obj [("printer", .obj [("state", .str "ready")])])])])) = .ok true :=
  ((is_printer_ready_characterization
      (some (.obj [("result", .obj [("status",
        .obj [("printer", .obj [("state", .str "ready")])])])]))
      (some (.str "ready")) rfl).1).mpr (Or.inl rfl)

/-- Counterexample to claim C9 as stated: on the malformed response
`{"result": 1}` (wrongly-shaped nesting: `result` present but not a
dict), `get_printer_state` raises instead of returning `None`. -/
theorem get_printer_state_nondict_counterexample :
    get_printer_state (some (.obj [("result", .num 1)])) = .error () ∧
    ∀ st, get_printer_state (some (.obj [("result", .num 1)])) ≠ .ok st := by
  refine ⟨rfl, ?_⟩
  intro st h
  rw [show get_printer_state (some (.obj [("result", .num 1)])) = .error ()
    from rfl] at h
  exact Except.noConfusion h

/-- Claim C9 as amended: `get_printer_state` returns `None` when the
response is absent or falsy and when any nesting key along
`result → status → printer → state` is missing from a dict level (the
defaulted lookups walk empty dicts down to a `None` state); when the
whole dict path is present it returns the extracted `state` field. A
present level that is not a dict instead raises (see the
counterexample). -/
theorem get_printer_state_missing_keys :
    get_printer_state none = .ok none ∧
    (∀ v, jTruthy v = false → get_printer_state (some v) = .ok none) ∧
    (∀ fields, fields.lookup "result" = none →
      get_printer_state (some (.obj fields)) = .ok none) ∧
    (∀ fields f1, fields.lookup "result" = some (.obj f1) →
      f1.lookup "status" = none →
      get_printer_state (some (.obj fields)) = .ok none) ∧
    (∀ fields f1 f2, fields.lookup "result" = some (.obj f1) →
      f1.lookup "status" = some (.obj f2) → f2.lookup "printer" = none →
      get_printer_state (some (.obj fields)) = .ok none) ∧
    (∀ fields f1 f2 f3, fields.lookup "result" = some (.obj f1) →
      f1.lookup "status" = some (.obj f2) →
      f2.lookup "printer" = some (.obj f3) →
      get_printer_state (some (.obj fields)) = .ok (f3.lookup "state")) := by
  refine ⟨rfl, ?_, ?_, ?_, ?_, ?_⟩
  · intro v hv
    simp [get_printer_state, hv]
  · intro fields h
    by_cases hT : jTruthy (.obj fields) = true
    · simp [get_printer_state, hT, dictGet, h]
    · have hF : jTruthy (.obj fields) = false := by
        revert hT; cases jTruthy (.obj fields) <;> simp
      simp [get_printer_state, hF]
  · intro fields f1 h1 h2
    have hT : jTruthy (.obj fields) = true := by
      cases fields with
      | nil => simp at h1
      | cons a l => simp [jTruthy]
    simp [get_printer_state, hT, dictGet, h1, h2]
  · intro fields f1 f2 h1 h2 h3
    have hT : jTruthy (.obj fields) = true := by
      cases fields with
      | nil => simp at h1
      | cons a l => simp [jTruthy]
    simp [get_printer_state, hT, dictGet, h1, h2, h3]
  · intro fields f1 f2 f3 h1 h2 h3
    have hT : jTruthy (.obj fields) = true := by
      cases fields with
      | nil => simp at h1
      | cons a l => simp [jTruthy]
    simp [get_printer_state, hT, dictGet, h1, h2, h3]

/-- Witness for C9 (amended): a truthy response without a `result` key
yields `None`. -/
theorem get_printer_state_missing_keys_witness :
    get_printer_state (some (.obj [("other", .num 1)])) = .ok none :=
  get_printer_state_missing_keys.2.2.1 [("other", .num 1)] rfl

/-! ## Properties of the workflow orchestrator -/

/-- The readiness loop never performs more polls than its range bound. -/
theorem pollReady_count_le (ready : Nat → Bool) :
    ∀ fuel i, (pollReady ready i fuel).2.1 ≤ fuel := by
  intro fuel
  induction fuel with
  | zero => intro i; simp [pollReady]
  | succ f ih =>
    intro i
    simp only [pollReady]
    split
    · simp
    · simpa using ih (i + 1)

/-- Every pause recorded by the readiness loop is the fixed 10 seconds. -/
theorem pollReady_sleeps_ten (ready : Nat → Bool) :
    ∀ fuel i x, x ∈ (pollReady ready i fuel).2.2 → x = 10 := by
  intro fuel
  induction fuel with
  | zero => intro i x hx; simp [pollReady] at hx
  | succ f ih =>
    intro i x hx
    simp only [pollReady] at hx
    rcases hq : ready i with _ | _
    · rw [hq] at hx
      simp only [if_false, Bool.false_eq_true, List.mem_cons] at hx
      rcases hx with hx | hx
      · exact hx
      · exact ih (i + 1) x hx
    · rw [hq] at hx
      simp at hx
  
/-- When every poll in range answers not-ready, the loop runs all of
them, pausing 10 seconds after each, and reports no success. -/
theorem pollReady_all_fail (ready : Nat → Bool) :
    ∀ fuel i, (∀ j, j < fuel → ready (i + j) = false) →
      pollReady ready i fuel = (false, fuel, List.replicate fuel 10) := by
  intro fuel
  induction fuel with
  | zero => intro i _; simp [pollReady]
  | succ f ih =>
    intro i h
    have h0 : ready i = false := by simpa using h 0 (Nat.succ_pos f)
    have hrec : pollReady ready (i + 1) f = (false, f, List.replicate f 10) := by
      refine ih (i + 1) ?_
      intro j hj
      have := h (j + 1) (by omega)
      rwa [show i + (j + 1) = i + 1 + j by omega] at this
    simp [pollReady, h0, hrec, List.replicate_succ]

/-- Claim C5: after a successful connectivity check, readiness is
polled at most 5 times, every pause between polls is the fixed 10
seconds, and when all 5 polls report not-ready the workflow returns
failure without calling upload, start or monitoring. -/
theorem readiness_poll_bound (ready : Nat → Bool) (u : Option String) (s m : Bool) :
    ((automate_k1max_printing_workflow true ready u s m).readyPolls ≤ 5 ∧
      ∀ x ∈ (automate_k1max_printing_workflow true ready u s m).sleeps, x = 10) ∧
    ((∀ i, i < 5 → ready i = false) →
      automate_k1max_printing_workflow true ready u s m =
        ⟨false, 5, List.replicate 5 10, false, false, false⟩) := by
  constructor
  · constructor
    · unfold automate_k1max_printing_workflow
      simp only [if_true]
      repeat' split
      all_goals exact pollReady_count_le ready 5 0
    · unfold automate_k1max_printing_workflow
      simp only [if_true]
      repeat' split
      all_goals exact pollReady_sleeps_ten ready 5 0
  · intro h
    unfold automate_k1max_printing_workflow
    rw [pollReady_all_fail ready 5 0 (by intro j hj; simpa using h j hj)]
    simp

/-- Witness for C5: with every poll not-ready the workflow fails after
5 polls and 5 fixed pauses, never reaching upload. -/
theorem readiness_poll_bound_witness :
    automate_k1max_printing_workflow true (fun _ => false) none false false =
      ⟨false, 5, List.replicate 5 10, false, false, false⟩ :=
  (readiness_poll_bound (fun _ => false) none false false).2 (fun _ _ => rfl)

/-- Claim C6: in real mode a missing local file makes `upload_gcode`
return `None` after zero transport attempts, and a workflow whose
upload stage produced that `None` returns failure without starting or
monitoring a print. -/
theorem upload_missing_file_no_attempts (t : Nat → Except String JValue)
    (name : String) (conn : Bool) (ready : Nat → Bool) (s m : Bool) :
    upload_gcode false false t name = (none, 0) ∧
    (automate_k1max_printing_workflow conn ready
      (upload_gcode false false t name).1 s m).result = false ∧
    (automate_k1max_printing_workflow conn ready
      (upload_gcode false false t name).1 s m).startCalled = false ∧
    (automate_k1max_printing_workflow conn ready
      (upload_gcode false false t name).1 s m).monitorCalled = false := by
  refine ⟨rfl, ?_⟩
  rw [show (upload_gcode false false t name).1 = none from rfl]
  unfold automate_k1max_printing_workflow
  refine ⟨?_, ?_, ?_⟩ <;> (repeat' split) <;> simp_all
  all_goals split <;> rfl

/-! ## Properties of the monitoring loop -/

/-- Structural shape of an actionable status notification, independent
of the monitored filename: a dict frame whose `method` is the string
`notify_status_update`, whose `params` is a non-empty list headed by a
dict, whose (defaulted) `print_stats` is a dict carrying a `state`
field as well as format-safe `progress` and `print_duration` values.
Returns the `state` value and the (defaulted) `filename` value. -/
def parsedNotif (v : JValue) : Option (JValue × JValue) :=
  match v with
  | .obj fields =>
    match fields.lookup "method" with
    | some (.str m) =>
      if m = "notify_status_update" then
        match fields.lookup "params" with
        | some (.arr (data :: _)) =>
          match data with
          | .obj df =>
            match (df.lookup "print_stats").getD (.obj []) with
            | .obj ps =>
              match ps.lookup "state" with
              | some st =>
                if numFormattable ((ps.lookup "progress").getD (.num 0)) &&
                    numFormattable ((ps.lookup "print_duration").getD (.num 0)) then
                  some (st, (ps.lookup "filename").getD .null)
                else none
              | none => none
            | _ => none
          | _ => none
        | _ => none
      else none
    | _ => none
  | _ => none

/-- Whether a JSON value is exactly the given string. -/
def isStr (s : String) : JValue → Bool
  | .str t => t == s
  | _ => false

/-- A well-formed status notification carrying the given phase for the
given filename. -/
def wellFormedStatusNotif (fexp phase : String) (v : JValue) : Bool :=
  match parsedNotif v with
  | some (st, fn) => isStr phase st && isStr fexp fn
  | none => false

/-- A receive outcome that is a well-formed matching notification with
phase `complete`. -/
def completeNotifEvent (fexp : String) : RecvEvent → Bool
  | .frame v => wellFormedStatusNotif fexp "complete" v
  | _ => false

/-- A receive outcome that is a well-formed matching notification with
one of the failing phases `error`, `cancelled`, `shutdown`. -/
def badPhaseNotifEvent (fexp : String) : RecvEvent → Bool
  | .frame v =>
    wellFormedStatusNotif fexp "error" v ||
    wellFormedStatusNotif fexp "cancelled" v ||
    wellFormedStatusNotif fexp "shutdown" v
  | _ => false

/-- A protocol failure: an undecodable message, a channel error, or a
frame whose processing raises (a malformed frame). -/
def protocolFailureEvent (fexp : String) : RecvEvent → Bool
  | .badJson => true
  | .wsError => true
  | .frame v =>
    match processFrame fexp v with
    | .error _ => true
    | .ok _ => false
  | _ => false

/-- A clean close of the notification channel. -/
def cleanCloseEvent : RecvEvent → Bool
  | .closedOk => true
  | _ => false

/-- `leafVerdict` breaks with success exactly for a matching filename
and the phase `complete`. -/
theorem leafVerdict_eq_some_true (fexp : String) (st fn : JValue) :
    leafVerdict fexp st fn = some true ↔
      fn = .str fexp ∧ st = .str "complete" := by
  unfold leafVerdict
  repeat' split
  all_goals simp_all

/-- `leafVerdict` breaks with failure exactly for a matching filename
and one of the phases `error`, `cancelled`, `shutdown`. -/
theorem leafVerdict_eq_some_false (fexp : String) (st fn : JValue) :
    leafVerdict fexp st fn = some false ↔
      fn = .str fexp ∧
        (st = .str "error" ∨ st = .str "cancelled" ∨ st = .str "shutdown") := by
  unfold leafVerdict
  repeat' split
  all_goals simp_all

/-- A `paused` phase never breaks the loop, whatever the filename. -/
theorem leafVerdict_paused (fexp : String) (fn : JValue) :
    leafVerdict fexp (.str "paused") fn = none := by
  unfold leafVerdict
  cases fn <;> try rfl
  case str s =>
    by_cases h : s = fexp <;> simp [h]

/-- A mismatched filename never breaks the loop, whatever the phase. -/
theorem leafVerdict_mismatch (fexp : String) (st fn : JValue)
    (h : fn ≠ .str fexp) :
    leafVerdict fexp st fn = none := by
  unfold leafVerdict
  repeat' split
  all_goals simp_all

/-- On a frame with the actionable notification shape, `processFrame`
succeeds and applies the terminal-state dispatch to the extracted state
and filename values. -/
theorem processFrame_of_parsed (fexp : String) (v st fn : JValue)
    (h : parsedNotif v = some (st, fn)) :
    processFrame fexp v = .ok (leafVerdict fexp st fn) := by
  unfold parsedNotif at h
  repeat' split at h
  all_goals try exact Option.noConfusion h
  simp only [Option.some.injEq, Prod.mk.injEq] at h
  obtain ⟨h1, h2⟩ := h
  subst h1
  subst h2
  simp_all [processFrame, pyContains, pySubscript, pyIndex0, dictGet]

/-- On every frame without the actionable notification shape,
`processFrame` either raises (a malformed frame, breaking the loop as a
failure) or lets the loop continue; it never breaks the loop with a
verdict. -/
theorem processFrame_of_unparsed (fexp : String) (v : JValue)
    (h : parsedNotif v = none) :
    processFrame fexp v = .error () ∨ processFrame fexp v = .ok none := by
  cases v with
  | null => simp [processFrame, pyContains]
  | bool b => simp [processFrame, pyContains]
  | num n => simp [processFrame, pyContains]
  | str s =>
    cases hb : ((s.splitOn "method").length != 1) <;>
      simp [processFrame, pyContains, pySubscript, hb]
  | arr xs =>
    cases hb : (xs.any fun x => match x with | .str s => s == "method" | _ => false) <;>
      simp [processFrame, pyContains, pySubscript, hb]
  | obj fields =>
    rcases hm : fields.lookup "method" with _ | mv
    · simp [processFrame, pyContains, hm]
    · cases mv with
      | null => simp [processFrame, pyContains, pySubscript, hm]
      | bool b => simp [processFrame, pyContains, pySubscript, hm]
      | num n => simp [processFrame, pyContains, pySubscript, hm]
      | arr xs => simp [processFrame, pyContains, pySubscript, hm]
      | obj o => simp [processFrame, pyContains, pySubscript, hm]
      | str ms =>
        by_cases hms : ms = "notify_status_update"
        · rcases hp : fields.lookup "params" with _ | pv
          · simp [processFrame, pyContains, pySubscript, hm, hms, hp]
          · cases pv with
            | null => simp [processFrame, pyContains, pySubscript, pyIndex0, hm, hms, hp]
            | bool b => simp [processFrame, pyContains, pySubscript, pyIndex0, hm, hms, hp]
            | num n => simp [processFrame, pyContains, pySubscript, pyIndex0, hm, hms, hp]
            | obj o => simp [processFrame, pyContains, pySubscript, pyIndex0, hm, hms, hp]
            | str ps =>
              rcases hd : ps.data with _ | ⟨c, cs⟩ <;>
                simp [processFrame, pyContains, pySubscript, pyIndex0, dictGet,
                  hm, hms, hp, hd]
            | arr ps =>
              cases ps with
              | nil => simp [processFrame, pyContains, pySubscript, pyIndex0, hm, hms, hp]
              | cons data rest =>
                cases data with
                | null =>
                  simp [processFrame, pyContains, pySubscript, pyIndex0, dictGet,
                    hm, hms, hp]
                | bool b =>
                  simp [processFrame, pyContains, pySubscript, pyIndex0, dictGet,
                    hm, hms, hp]
                | num n =>
                  simp [processFrame, pyContains, pySubscript, pyIndex0, dictGet,
                    hm, hms, hp]
                | str s =>
                  simp [processFrame, pyContains, pySubscript, pyIndex0, dictGet,
                    hm, hms, hp]
                | arr ys =>
                  simp [processFrame, pyContains, pySubscript, pyIndex0, dictGet,
                    hm, hms, hp]
                | obj df =>
                  cases hps : (df.lookup "print_stats").getD (.obj []) with
                  | null =>
                    simp [processFrame, pyContains, pySubscript, pyIndex0, dictGet,
                      hm, hms, hp, hps]
                  | bool b =>
                    simp [processFrame, pyContains, pySubscript, pyIndex0, dictGet,
                      hm, hms, hp, hps]
                  | num n =>
                    simp [processFrame, pyContains, pySubscript, pyIndex0, dictGet,
                      hm, hms, hp, hps]
                  | str s =>
                    cases hb : ((s.splitOn "state").length != 1) <;>
                      simp [processFrame, pyContains, pySubscript, pyIndex0, dictGet,
                        hm, hms, hp, hps, hb]
                  | arr ys =>
                    cases hb : (ys.any fun x =>
                        match x with | .str s => s == "state" | _ => false) <;>
                      simp [processFrame, pyContains, pySubscript, pyIndex0, dictGet,
                        hm, hms, hp, hps, hb]
                  | obj ps2 =>
                    rcases hst : ps2.lookup "state" with _ | stv
                    · simp [processFrame, pyContains, pySubscript, pyIndex0, dictGet,
                        hm, hms, hp, hps, hst]
                    · cases hprog : numFormattable ((ps2.lookup "progress").getD (.num 0)) with
                      | false =>
                        simp [processFrame, pyContains, pySubscript, pyIndex0, dictGet,
                          hm, hms, hp, hps, hst, hprog]
                      | true =>
                        cases hdur : numFormattable
                            ((ps2.lookup "print_duration").getD (.num 0)) with
                        | false =>
                          simp [processFrame, pyContains, pySubscript, pyIndex0, dictGet,
                            hm, hms, hp, hps, hst, hprog, hdur]
                        | true =>
                          exfalso
                          have hpos : parsedNotif (.obj fields) =
                              some (stv, (ps2.lookup "filename").getD .null) := by
                            simp [parsedNotif, hm, hms, hp, hps, hst, hprog, hdur]
                          rw [h] at hpos
                          exact Option.noConfusion hpos
        · simp [processFrame, pyContains, pySubscript, hm, hms]

/-- `isStr` tests equality with the string value. -/
theorem isStr_iff (s : String) (v : JValue) : isStr s v = true ↔ v = .str s := by
  cases v <;> simp [isStr]

/-- On a frame with the notification shape, one loop iteration exits
with the dispatched verdict as its success flag, or continues when the
dispatch yields nothing. -/
theorem exitPayload_frame (fexp : String) (v st fn : JValue)
    (hp : parsedNotif v = some (st, fn)) :
    exitPayload fexp (.frame v) =
      (leafVerdict fexp st fn).map (fun b => ⟨b, false, 0⟩) := by
  simp only [exitPayload, processFrame_of_parsed fexp v st fn hp]
  cases leafVerdict fexp st fn <;> simp

/-- A loop iteration exits with success exactly on a well-formed
matching notification with phase `complete`. -/
theorem exitPayload_success_iff (fexp : String) (e : RecvEvent) :
    (∃ p, exitPayload fexp e = some p ∧ p.success = true) ↔
      completeNotifEvent fexp e = true := by
  cases e with
  | timeout => simp [exitPayload, completeNotifEvent]
  | closedOk => simp [exitPayload, completeNotifEvent]
  | wsError => simp [exitPayload, completeNotifEvent]
  | badJson => simp [exitPayload, completeNotifEvent]
  | frame v =>
    rcases hp : parsedNotif v with _ | ⟨st, fn⟩
    · rcases processFrame_of_unparsed fexp v hp with hpf | hpf <;>
        simp [exitPayload, completeNotifEvent, wellFormedStatusNotif, hp, hpf]
    · have hiffT := leafVerdict_eq_some_true fexp st fn
      rw [exitPayload_frame fexp v st fn hp]
      simp only [completeNotifEvent, wellFormedStatusNotif, hp]
      rcases hl : leafVerdict fexp st fn with _ | b
      · rw [hl] at hiffT
        simp only [Option.map_none']
        simp only [Bool.and_eq_true, isStr_iff]
        constructor
        · rintro ⟨p, hp2, _⟩
          exact Option.noConfusion hp2
        · rintro ⟨h1, h2⟩
          exact absurd (hiffT.mpr ⟨h2, h1⟩) (by simp)
      · rw [hl] at hiffT
        simp only [Option.map_some']
        constructor
        · rintro ⟨p, hp2, hsuc⟩
          obtain rfl : (⟨b, false, 0⟩ : LoopResult) = p := Option.some.injEq _ _ ▸ hp2
          have hb : b = true := hsuc
          subst hb
          obtain ⟨h2, h1⟩ := hiffT.mp rfl
          simp [Bool.and_eq_true, isStr_iff, h1, h2]
        · intro hw
          refine ⟨⟨b, false, 0⟩, rfl, ?_⟩
          simp only [Bool.and_eq_true, isStr_iff] at hw
          have : some b = some true := by
            rw [hiffT]
            exact ⟨hw.2, hw.1⟩
          simpa using this.symm

/-- A loop iteration exits with failure exactly on a well-formed
matching notification with a failing phase, a protocol failure, or a
clean close. -/
theorem exitPayload_failure_iff (fexp : String) (e : RecvEvent) :
    (∃ p, exitPayload fexp e = some p ∧ p.success = false) ↔
      (badPhaseNotifEvent fexp e || protocolFailureEvent fexp e ||
        cleanCloseEvent e) = true := by
  cases e with
  | timeout =>
    simp [exitPayload, badPhaseNotifEvent, protocolFailureEvent, cleanCloseEvent]
  | closedOk =>
    refine ⟨fun _ => by simp [badPhaseNotifEvent, protocolFailureEvent, cleanCloseEvent],
      fun _ => ⟨⟨false, true, 0⟩, rfl, rfl⟩⟩
  | wsError =>
    refine ⟨fun _ => by simp [badPhaseNotifEvent, protocolFailureEvent, cleanCloseEvent],
      fun _ => ⟨⟨false, false, 0⟩, rfl, rfl⟩⟩
  | badJson =>
    refine ⟨fun _ => by simp [badPhaseNotifEvent, protocolFailureEvent, cleanCloseEvent],
      fun _ => ⟨⟨false, false, 0⟩, rfl, rfl⟩⟩
  | frame v =>
    rcases hp : parsedNotif v with _ | ⟨st, fn⟩
    · rcases processFrame_of_unparsed fexp v hp with hpf | hpf
      · -- malformed frame: raises, and is a protocol failure
        refine ⟨fun _ => ?_, fun _ => ⟨⟨false, false, 0⟩, by simp [exitPayload, hpf], rfl⟩⟩
        simp [badPhaseNotifEvent, protocolFailureEvent, wellFormedStatusNotif, hp, hpf]
      · -- continues: no exit, and no failure event
        simp [exitPayload, badPhaseNotifEvent, protocolFailureEvent, cleanCloseEvent,
          wellFormedStatusNotif, hp, hpf]
    · have hiffF := leafVerdict_eq_some_false fexp st fn
      have hpf := processFrame_of_parsed fexp v st fn hp
      rw [exitPayload_frame fexp v st fn hp]
      simp only [badPhaseNotifEvent, protocolFailureEvent, cleanCloseEvent,
        wellFormedStatusNotif, hp, hpf]
      rcases hl : leafVerdict fexp st fn with _ | b
      · rw [hl] at hiffF
        simp only [Option.map_none']
        constructor
        · rintro ⟨p, hp2, _⟩
          exact Option.noConfusion hp2
        · intro hw
          exfalso
          simp only [Bool.or_eq_true, Bool.and_eq_true, isStr_iff] at hw
          have hsome : (none : Option Bool) = some false := by
            rw [hiffF]
            tauto
          exact Option.noConfusion hsome
      · rw [hl] at hiffF
        simp only [Option.map_some']
        constructor
        · rintro ⟨p, hp2, hsuc⟩
          obtain rfl : (⟨b, false, 0⟩ : LoopResult) = p := Option.some.injEq _ _ ▸ hp2
          have hb : b = false := hsuc
          subst hb
          obtain ⟨h2, h1⟩ := hiffF.mp rfl
          rcases h1 with h1 | h1 | h1 <;>
            simp [Bool.and_eq_true, isStr_iff, h1, h2]
        · intro hw
          refine ⟨⟨b, false, 0⟩, rfl, ?_⟩
          simp only [Bool.or_eq_true, Bool.and_eq_true, isStr_iff] at hw
          have hsome : some b = some false := by
            rw [hiffF]
            tauto
          simpa using hsome.symm

/-- Number of re-subscriptions sent while handling a list of receive
outcomes that all continue the loop. -/
def countResubs : List RecvEvent → Nat
  | [] => 0
  | e :: rest => resubDelta e + countResubs rest

/-- The receive loop exits with state `r` exactly when the event list
splits into a prefix of continuing events followed by an exiting event:
`r` carries that event's exit state plus one re-subscription per
timeout in the prefix. -/
theorem monitorLoop_eq_some_iff (fexp : String) (events : List RecvEvent)
    (r : LoopResult) :
    monitorLoop fexp events = some r ↔
      ∃ pre e rest p, events = pre ++ e :: rest ∧
        (∀ x ∈ pre, exitPayload fexp x = none) ∧
        exitPayload fexp e = some p ∧
        r = ⟨p.success, p.closedByPeer, p.resubs + countResubs pre⟩ := by
  induction events generalizing r with
  | nil =>
    constructor
    · intro h
      exact Option.noConfusion h
    · rintro ⟨pre, e, rest, p, hev, -, -, -⟩
      exact absurd hev (by cases pre <;> simp)
  | cons x es ih =>
    cases hx : exitPayload fexp x with
    | some p0 =>
      simp only [monitorLoop, hx]
      constructor
      · intro h
        obtain rfl : p0 = r := by simpa using h
        exact ⟨[], x, es, p0, rfl, by simp, hx, by simp [countResubs]⟩
      · rintro ⟨pre, e, rest, p, hev, hpre, hpay, hr⟩
        cases pre with
        | nil =>
          simp only [List.nil_append, List.cons.injEq] at hev
          obtain ⟨rfl, rfl⟩ := hev
          rw [hx] at hpay
          obtain rfl : p0 = p := by simpa using hpay
          simp [hr, countResubs]
        | cons y pre2 =>
          simp only [List.cons_append, List.cons.injEq] at hev
          obtain ⟨rfl, -⟩ := hev
          have hcontra := hpre _ (List.mem_cons_self _ _)
          rw [hx] at hcontra
          exact Option.noConfusion hcontra
    | none =>
      simp only [monitorLoop, hx]
      cases hm : monitorLoop fexp es with
      | none =>
        simp only [hm]
        constructor
        · intro h
          exact Option.noConfusion h
        · rintro ⟨pre, e, rest, p, hev, hpre, hpay, hr⟩
          cases pre with
          | nil =>
            simp only [List.nil_append, List.cons.injEq] at hev
            obtain ⟨rfl, rfl⟩ := hev
            rw [hx] at hpay
            exact Option.noConfusion hpay
          | cons y pre2 =>
            simp only [List.cons_append, List.cons.injEq] at hev
            obtain ⟨rfl, hrest⟩ := hev
            have h2 : monitorLoop fexp es =
                some ⟨p.success, p.closedByPeer, p.resubs + countResubs pre2⟩ :=
              (ih _).mpr ⟨pre2, e, rest, p, hrest,
                fun z hz => hpre z (by simp [hz]), hpay, rfl⟩
            rw [hm] at h2
            exact Option.noConfusion h2
      | some r2 =>
        simp only [hm]
        constructor
        · intro h
          obtain rfl : (⟨r2.success, r2.closedByPeer, r2.resubs + resubDelta x⟩ :
              LoopResult) = r := by simpa using h
          obtain ⟨pre2, e, rest, p, hev, hpre, hpay, hr2⟩ := (ih r2).mp hm
          refine ⟨x :: pre2, e, rest, p, by simp [hev], ?_, hpay, ?_⟩
          · intro z hz
            rcases List.mem_cons.mp hz with hz | hz
            · subst hz; exact hx
            · exact hpre z hz
          · rw [hr2]
            simp only [LoopResult.mk.injEq, countResubs]
            repeat' constructor
            all_goals omega
        · rintro ⟨pre, e, rest, p, hev, hpre, hpay, hr⟩
          cases pre with
          | nil =>
            simp only [List.nil_append, List.cons.injEq] at hev
            obtain ⟨rfl, rfl⟩ := hev
            rw [hx] at hpay
            exact Option.noConfusion hpay
          | cons y pre2 =>
            simp only [List.cons_append, List.cons.injEq] at hev
            obtain ⟨rfl, hrest⟩ := hev
            have h2 : monitorLoop fexp es =
                some ⟨p.success, p.closedByPeer, p.resubs + countResubs pre2⟩ :=
              (ih _).mpr ⟨pre2, e, rest, p, hrest,
                fun z hz => hpre z (by simp [hz]), hpay, rfl⟩
            rw [hm] at h2
            obtain rfl : r2 = (⟨p.success, p.closedByPeer,
                p.resubs + countResubs pre2⟩ : LoopResult) := by simpa using h2
            rw [hr]
            simp only [Option.some.injEq, LoopResult.mk.injEq, countResubs]
            repeat' constructor
            all_goals omega

/-- Inserting an event that continues the loop and sends nothing (a
skipped frame) anywhere in the event list does not change the loop's
outcome at all. -/
theorem monitorLoop_insert_skip (fexp : String) (e : RecvEvent)
    (he : exitPayload fexp e = none) (hd : resubDelta e = 0) :
    ∀ xs ys, monitorLoop fexp (xs ++ e :: ys) = monitorLoop fexp (xs ++ ys) := by
  intro xs
  induction xs with
  | nil =>
    intro ys
    simp only [List.nil_append, monitorLoop, he]
    cases hm : monitorLoop fexp ys with
    | none => rfl
    | some r => simp [hd]
  | cons x xs ih =>
    intro ys
    show monitorLoop fexp (x :: (xs ++ e :: ys)) = monitorLoop fexp (x :: (xs ++ ys))
    rw [monitorLoop, monitorLoop, ih ys]

/-- Inserting a timeout after a prefix of continuing events preserves
the loop's outcome and adds exactly one re-subscription. -/
theorem monitorLoop_insert_timeout (fexp : String) (xs ys : List RecvEvent)
    (hxs : ∀ x ∈ xs, exitPayload fexp x = none) :
    monitorLoop fexp (xs ++ RecvEvent.timeout :: ys) =
      (monitorLoop fexp (xs ++ ys)).map
        (fun r => ⟨r.success, r.closedByPeer, r.resubs + 1⟩) := by
  induction xs with
  | nil =>
    simp only [List.nil_append, monitorLoop]
    rw [show exitPayload fexp RecvEvent.timeout = none from rfl]
    cases hm : monitorLoop fexp ys with
    | none => simp
    | some r => simp [resubDelta]
  | cons x xs ih =>
    have hx : exitPayload fexp x = none := hxs x (by simp)
    have ih2 := ih (fun z hz => hxs z (by simp [hz]))
    show monitorLoop fexp (x :: (xs ++ RecvEvent.timeout :: ys)) =
      Option.map (fun r => ⟨r.success, r.closedByPeer, r.resubs + 1⟩)
        (monitorLoop fexp (x :: (xs ++ ys)))
    rw [monitorLoop, monitorLoop, hx, ih2]
    cases hm : monitorLoop fexp (xs ++ ys) with
    | none => simp
    | some r =>
      simp only [Option.map_some', Option.some.injEq, LoopResult.mk.injEq]
      repeat' constructor
      all_goals omega

/-- Claim C3: in real mode, whenever a monitoring run finishes, the
notification channel ends closed and was closed exactly once — either
by the peer (clean close) or by the `finally` block, never both. -/
theorem channel_closed_exactly_once (fexp : String) (events : List RecvEvent)
    (res : MonitorResult) (h : monitor_print_status false fexp events = some res) :
    res.closedAtEnd = true ∧ res.closeActions = 1 := by
  unfold monitor_print_status at h
  cases hm : monitorLoop fexp events with
  | none => rw [hm] at h; exact Option.noConfusion h
  | some r =>
    rw [hm] at h
    injection h with h
    subst h
    cases hr : r.closedByPeer <;> simp [hr]

/-- Witness for C3: a run ended by a clean close is closed exactly once. -/
theorem channel_closed_exactly_once_witness :
    (⟨false, 1, true, 1⟩ : MonitorResult).closedAtEnd = true ∧
    (⟨false, 1, true, 1⟩ : MonitorResult).closeActions = 1 :=
  channel_closed_exactly_once "part.gcode" [RecvEvent.closedOk] ⟨false, 1, true, 1⟩ rfl

/-- Claim C7: an idle timeout reached during monitoring is never fatal:
the run's outcome, close behaviour and termination are exactly those of
the run without the timeout, with one more subscribe message sent. -/
theorem idle_timeout_resubscribes (fexp : String) (xs ys : List RecvEvent)
    (h : ∀ e ∈ xs, exitPayload fexp e = none) :
    monitor_print_status false fexp (xs ++ RecvEvent.timeout :: ys) =
      (monitor_print_status false fexp (xs ++ ys)).map
        (fun r => ⟨r.result, r.closeActions, r.closedAtEnd, r.subscribeSends + 1⟩) := by
  unfold monitor_print_status
  rw [monitorLoop_insert_timeout fexp xs ys h]
  cases hm : monitorLoop fexp (xs ++ ys) with
  | none => simp
  | some r =>
    simp only [Option.map_some', Option.some.injEq, MonitorResult.mk.injEq]
    repeat' constructor

/-- Witness for C7: a timeout before a channel error leaves the failure
outcome unchanged and sends one extra subscribe message. -/
theorem idle_timeout_resubscribes_witness :
    monitor_print_status false "part.gcode" [RecvEvent.timeout, RecvEvent.wsError] =
      (monitor_print_status false "part.gcode" [RecvEvent.wsError]).map
        (fun r => ⟨r.result, r.closeActions, r.closedAtEnd, r.subscribeSends + 1⟩) :=
  idle_timeout_resubscribes "part.gcode" [] [RecvEvent.wsError] (by simp)

/-- Claim C4: a well-formed notification whose filename differs from
the monitored one is skipped: removing it from the received events
changes nothing observable about the run, whatever phase it carries. -/
theorem mismatched_notification_skipped (enable_mock : Bool) (fexp : String)
    (v st fn : JValue) (hp : parsedNotif v = some (st, fn))
    (hfn : fn ≠ .str fexp) (xs ys : List RecvEvent) :
    monitor_print_status enable_mock fexp (xs ++ RecvEvent.frame v :: ys) =
      monitor_print_status enable_mock fexp (xs ++ ys) := by
  have hexit : exitPayload fexp (RecvEvent.frame v) = none := by
    rw [exitPayload_frame fexp v st fn hp, leafVerdict_mismatch fexp st fn hfn]
    rfl
  unfold monitor_print_status
  rw [monitorLoop_insert_skip fexp (RecvEvent.frame v) hexit rfl xs ys]

/-- Witness for C4: a `complete` notification for a different file does
not end the monitoring of `part.gcode`. -/
theorem mismatched_notification_skipped_witness :
    monitor_print_status false "part.gcode"
      [RecvEvent.frame (.obj [("method", .str "notify_status_update"),
        ("params", .arr [.obj [("print_stats", .obj [("state", .str "complete"),
          ("filename", .str "other.gcode"), ("progress", .num 1),
          ("print_duration", .num 100)])]])])] =
      monitor_print_status false "part.gcode" [] :=
  mismatched_notification_skipped false "part.gcode"
    (.obj [("method", .str "notify_status_update"),
      ("params", .arr [.obj [("print_stats", .obj [("state", .str "complete"),
        ("filename", .str "other.gcode"), ("progress", .num 1),
        ("print_duration", .num 100)])]])])
    (.str "complete") (.str "other.gcode") rfl (by simp) [] []

/-- Counterexample to claim C1 as stated: a clean close of the channel
before any notification ends monitoring with failure, although the run
contains no bad-phase notification and no protocol failure. -/
theorem monitor_clean_close_counterexample :
    (∃ res, monitor_print_status false "part.gcode" [RecvEvent.closedOk] = some res ∧
      res.result = false) ∧
    ∀ e ∈ [RecvEvent.closedOk],
      badPhaseNotifEvent "part.gcode" e = false ∧
      protocolFailureEvent "part.gcode" e = false := by
  constructor
  · exact ⟨⟨false, 1, true, 1⟩, rfl, rfl⟩
  · intro e he
    simp only [List.mem_singleton] at he
    subst he
    exact ⟨rfl, rfl⟩

/-- Claim C1 (amended): a finished monitoring run returns success
exactly when the received events are a prefix of non-terminating events
followed by a well-formed matching notification with phase `complete`;
it returns failure exactly when that prefix is instead followed by a
matching notification with phase `error`, `cancelled` or `shutdown`, a
protocol failure (malformed frame or channel error), or a clean close
of the channel; a matching notification with phase `paused` alone never
ends the loop. -/
theorem monitor_outcome_characterization (fexp : String) (events : List RecvEvent)
    (res : MonitorResult) (h : monitor_print_status false fexp events = some res) :
    (res.result = true ↔ ∃ pre e rest, events = pre ++ e :: rest ∧
      (∀ x ∈ pre, exitPayload fexp x = none) ∧
      completeNotifEvent fexp e = true) ∧
    (res.result = false ↔ ∃ pre e rest, events = pre ++ e :: rest ∧
      (∀ x ∈ pre, exitPayload fexp x = none) ∧
      (badPhaseNotifEvent fexp e || protocolFailureEvent fexp e ||
        cleanCloseEvent e) = true) ∧
    (∀ v, wellFormedStatusNotif fexp "paused" v = true →
      exitPayload fexp (RecvEvent.frame v) = none) := by
  unfold monitor_print_status at h
  cases hm : monitorLoop fexp events with
  | none => rw [hm] at h; exact Option.noConfusion h
  | some r =>
    rw [hm] at h
    injection h with h
    subst h
    refine ⟨?_, ?_, ?_⟩
    · constructor
      · intro hres
        have hrs : r.success = true := hres
        obtain ⟨pre, e0, rest, p, hev, hpre, hpay, hr⟩ :=
          (monitorLoop_eq_some_iff fexp events r).mp hm
        refine ⟨pre, e0, rest, hev, hpre, ?_⟩
        rw [hr] at hrs
        exact (exitPayload_success_iff fexp e0).mp ⟨p, hpay, hrs⟩
      · rintro ⟨pre2, e2, rest2, hev2, hpre2, hcomp⟩
        obtain ⟨q, hq, hqs⟩ := (exitPayload_success_iff fexp e2).mpr hcomp
        have h2 : monitorLoop fexp events =
            some ⟨q.success, q.closedByPeer, q.resubs + countResubs pre2⟩ :=
          (monitorLoop_eq_some_iff fexp events _).mpr
            ⟨pre2, e2, rest2, q, hev2, hpre2, hq, rfl⟩
        rw [hm] at h2
        injection h2 with h2
        show r.success = true
        rw [h2]
        exact hqs
    · constructor
      · intro hres
        have hrs : r.success = false := hres
        obtain ⟨pre, e0, rest, p, hev, hpre, hpay, hr⟩ :=
          (monitorLoop_eq_some_iff fexp events r).mp hm
        refine ⟨pre, e0, rest, hev, hpre, ?_⟩
        rw [hr] at hrs
        exact (exitPayload_failure_iff fexp e0).mp ⟨p, hpay, hrs⟩
      · rintro ⟨pre2, e2, rest2, hev2, hpre2, hbad⟩
        obtain ⟨q, hq, hqs⟩ := (exitPayload_failure_iff fexp e2).mpr hbad
        have h2 : monitorLoop fexp events =
            some ⟨q.success, q.closedByPeer, q.resubs + countResubs pre2⟩ :=
          (monitorLoop_eq_some_iff fexp events _).mpr
            ⟨pre2, e2, rest2, q, hev2, hpre2, hq, rfl⟩
        rw [hm] at h2
        injection h2 with h2
        show r.success = false
        rw [h2]
        exact hqs
    · intro v hw
      unfold wellFormedStatusNotif at hw
      rcases hpv : parsedNotif v with _ | ⟨st, fn⟩
      · rw [hpv] at hw
        exact Bool.noConfusion hw
      · rw [hpv] at hw
        simp only [Bool.and_eq_true, isStr_iff] at hw
        obtain ⟨hst, hfn⟩ := hw
        rw [exitPayload_frame fexp v st fn hpv, hst, leafVerdict_paused]
        rfl

/-- Witness for C1: a single well-formed matching `complete`
notification makes monitoring succeed, and the characterization
produces the decomposition. -/
theorem monitor_outcome_characterization_witness :
    ∃ pre e rest,
      ([RecvEvent.frame (.obj [("method", .str "notify_status_update"),
        ("params", .arr [.obj [("print_stats", .obj [("state", .str "complete"),
          ("filename", .str "part.gcode"), ("progress", .num 1),
          ("print_duration", .num 100)])]])])] : List RecvEvent) = pre ++ e :: rest ∧
      (∀ x ∈ pre, exitPayload "part.gcode" x = none) ∧
      completeNotifEvent "part.gcode" e = true :=
  ((monitor_outcome_characterization "part.gcode"
      [RecvEvent.frame (.obj [("method", .str "notify_status_update"),
        ("params", .arr [.obj [("print_stats", .obj [("state", .str "complete"),
          ("filename", .str "part.gcode"), ("progress", .num 1),
          ("print_duration", .num 100)])]])])]
      ⟨true, 1, true, 1⟩ rfl).1).mp rfl

